import Mathlib

/-!
A shallow embedding of the PubMed ETL core of the repository
(`src/pyscisci/datasource/PubMed.py`, with `load_int` from
`src/pyscisci/utils.py`), together with theorems settling the claims of
the specification about this pipeline.

Python dynamic values are embedded as `PyVal`, Python exceptions as
`PyErr`; every code path that can raise is a function into
`Except PyErr _`.  XML element trees (the parsed shard documents) are
embedded as `XNode`.
-/

namespace PubMedETL

/-- A Python runtime exception class, as far as the embedded code can raise
or catch one. -/
inductive PyErr where
  /-- `ValueError`, raised by `int(...)` / `float(...)` on an unparseable
  string and by pandas coercions on unparseable values. -/
  | valueError
  /-- `TypeError`, raised by `int(None)`, by `None > 0`, and by pandas
  `astype(int)` on a `None` entry. -/
  | typeError
  /-- `AttributeError`, raised by `None.find(...)` / `None.attrib` when an
  expected XML node is absent. -/
  | attributeError
  /-- `NameError`, raised on reading a name that is not bound (the `seq`
  loop variable before any author loop ran, the `ignore_indexTrue` slip,
  and `show_progress` in a function without that parameter). -/
  | nameError
  deriving DecidableEq, Repr

/-- Decidable equality of `Except` results, so concrete runs of the
embedded (exception-throwing) code can be settled by `decide`. -/
instance exceptDecEq {ε α : Type} [DecidableEq ε] [DecidableEq α] :
    DecidableEq (Except ε α) := fun x y =>
  match x, y with
  | .ok a, .ok b =>
    if h : a = b then isTrue (by rw [h]) else isFalse (by simp [h])
  | .error a, .error b =>
    if h : a = b then isTrue (by rw [h]) else isFalse (by simp [h])
  | .ok _, .error _ => isFalse (by simp)
  | .error _, .ok _ => isFalse (by simp)

/-- A Python dynamic value, restricted to the shapes the embedded code
actually stores in records and table cells: `None`, `int`, `str`.
(Floats produced by `pd.to_numeric` are represented by the integral values
the pipeline actually feeds it; `NaN` for a missing value is `PyVal.none`.) -/
inductive PyVal where
  | none
  | int (n : Int)
  | str (s : String)
  deriving DecidableEq, Repr

/-- An XML element: tag, attributes, text content, children.  This embeds
the `lxml.etree` elements the extractor traverses. -/
inductive XNode where
  | node (tag : String) (attrs : List (String × String)) (text : Option String)
      (children : List XNode)

namespace XNode

def tag : XNode → String
  | node t _ _ _ => t

def attrs : XNode → List (String × String)
  | node _ a _ _ => a

def text : XNode → Option String
  | node _ _ tx _ => tx

def children : XNode → List XNode
  | node _ _ _ c => c

end XNode

/-- `element.findall(tag)`: all direct children with the given tag, in
document order. -/
def xfindall (x : XNode) (t : String) : List XNode :=
  x.children.filter (fun c => c.tag = t)

/-- `element.find(tag)`: the first direct child with the given tag, or
`None`. -/
def xfind (x : XNode) (t : String) : Option XNode :=
  x.children.find? (fun c => c.tag = t)

/-- `element.find("A/B")`: first `B` child of the first `A` child
(lxml path find; `None` when either level is absent). -/
def xfindPath (x : XNode) (t1 t2 : String) : Option XNode :=
  match xfind x t1 with
  | Option.none => Option.none
  | Option.some c => xfind c t2

/-- Attribute lookup on an element, `element.attrib.get(key, default)`. -/
def xattrGet (x : XNode) (key dflt : String) : String :=
  match x.attrs.find? (fun p => p.1 = key) with
  | Option.none => dflt
  | Option.some p => p.2

/-- `element.find` with an attribute predicate: first direct child with the tag whose
attribute `Attr` equals `v` (lxml predicate find). -/
def xfindAttr (x : XNode) (t attr v : String) : Option XNode :=
  (xfindall x t).find? (fun c => xattrGet c attr "" = v)

/-- `maybeNode.find(tag)` where the receiver may be Python `None`:
raises `AttributeError` on `None`, otherwise a plain `find`. -/
def pyFind (x : Option XNode) (t : String) : Except PyErr (Option XNode) :=
  match x with
  | Option.none => .error .attributeError
  | Option.some n => .ok (xfind n t)

/-- `maybeNode.findall(tag)` where the receiver may be Python `None`. -/
def pyFindall (x : Option XNode) (t : String) : Except PyErr (List XNode) :=
  match x with
  | Option.none => .error .attributeError
  | Option.some n => .ok (xfindall n t)

/-- `maybeNode.attrib.get(key, default)` where the receiver may be `None`. -/
def pyAttrGet (x : Option XNode) (key dflt : String) : Except PyErr String :=
  match x with
  | Option.none => .error .attributeError
  | Option.some n => .ok (xattrGet n key dflt)

/-- Is this character an ASCII decimal digit? -/
def isDigitChar (c : Char) : Bool :=
  ('0' ≤ c) ∧ (c ≤ '9')

/-- Strip leading and trailing whitespace (Python's implicit strip inside
`int(s)`), computably over the character list. -/
def stripChars (cs : List Char) : List Char :=
  ((cs.dropWhile Char.isWhitespace).reverse.dropWhile Char.isWhitespace).reverse

/-- Replace every occurrence of `pat` (non-overlapping, left to right), as
Python `str.replace`; `fuel` bounds the recursion and is instantiated with
the subject's length. -/
def replaceAux (pat rep : List Char) : Nat → List Char → List Char
  | _, [] => []
  | 0, cs => cs
  | fuel + 1, c :: rest =>
    if pat ≠ [] ∧ pat.isPrefixOf (c :: rest) then
      rep ++ replaceAux pat rep fuel (List.drop (pat.length - 1) rest)
    else
      c :: replaceAux pat rep fuel rest

/-- Python `s.replace(pat, rep)` for a nonempty pattern. -/
def pyReplace (s pat rep : String) : String :=
  ⟨replaceAux pat.toList rep.toList s.toList.length s.toList⟩

/-- The natural number denoted by a nonempty list of decimal digits. -/
def digitsVal (cs : List Char) : Nat :=
  cs.foldl (fun acc c => acc * 10 + (c.toNat - '0'.toNat)) 0

/-- Python `int(s)` on a string: optional surrounding whitespace, optional
sign, then one or more decimal digits; anything else raises `ValueError`.
(Underscore digit separators and non-decimal bases are not used by any
input of this pipeline and are omitted.) -/
def pyIntString (s : String) : Except PyErr Int :=
  let cs := stripChars s.toList
  let (neg, ds) :=
    match cs with
    | '-' :: rest => (true, rest)
    | '+' :: rest => (false, rest)
    | rest => (false, rest)
  if ds ≠ [] ∧ ds.all isDigitChar then
    .ok (if neg then -(digitsVal ds : Int) else (digitsVal ds : Int))
  else
    .error .valueError

/-- Python `int(v)` on a dynamic value: parses strings, passes integers
through, and raises `TypeError` on `None`. -/
def pyInt (v : PyVal) : Except PyErr Int :=
  match v with
  | .int n => .ok n
  | .str s => pyIntString s
  | .none => .error .typeError

/-- `utils.load_int` (src/pyscisci/utils.py lines 245-249):
`try: return int(v) except ValueError: return None`.  Only `ValueError`
is caught; any other exception (e.g. the `TypeError` from `int(None)`)
propagates. -/
def load_int (v : PyVal) : Except PyErr PyVal :=
  match pyInt v with
  | .ok n => .ok (.int n)
  | .error .valueError => .ok .none
  | .error e => .error e

/-- Modelled from the spec: `load_xml_text` lives in
`pyscisci/datasource/readwrite.py`, which is not under `src/`.  Per the
spec, reading the text of an optional node that is absent (or has no
text) degrades to the empty-string default; otherwise it is the node's
text. -/
def load_xml_text (x : Option XNode) : String :=
  match x with
  | Option.none => ""
  | Option.some n =>
    match n.text with
    | Option.none => ""
    | Option.some s => s

/-- Modelled from the spec: `load_html_str` lives in
`pyscisci/datasource/readwrite.py`, which is not under `src/`.  It is a
text clean-up (HTML unescaping) that is the identity on the plain strings
this development manipulates. -/
def load_html_str (s : String) : String := s

/-- Python `v > 0` on a dynamic value: defined for `int`, a `TypeError`
for `None` or a string (Python 3 comparison rules). -/
def pyGtZero (v : PyVal) : Except PyErr Bool :=
  match v with
  | .int n => .ok (decide (0 < n))
  | _ => .error .typeError

/-- Python `dict[k] = v`: replace the value in place when the key exists,
else append the new binding (insertion-order-preserving dict semantics). -/
def dictSet {α β : Type} [DecidableEq α] (m : List (α × β)) (k : α) (v : β) :
    List (α × β) :=
  match m with
  | [] => [(k, v)]
  | (k0, v0) :: rest => if k0 = k then (k, v) :: rest else (k0, v0) :: dictSet rest k v

/-- Python `dict.get(k)`. -/
def dictGet? {α β : Type} [DecidableEq α] (m : List (α × β)) (k : α) : Option β :=
  match m.find? (fun p => p.1 = k) with
  | Option.none => Option.none
  | Option.some p => Option.some p.2

/-- One publication record, with the fields in the insertion order of
`PubMed._blank_pubmed_publication` (PubMed.py lines 47-62). -/
structure PubRecord where
  PublicationId : PyVal
  Title : String
  Year : PyVal
  Volume : PyVal
  Issue : PyVal
  Pages : PyVal
  JournalId : String
  TeamSize : Nat
  Month : PyVal
  Day : PyVal
  ISSN : String
  Doi : String
  deriving DecidableEq, Repr

/-- `PubMed._blank_pubmed_publication(PublicationId)`: the defaults of
PubMed.py lines 47-62 with the (possibly `None`) id passed in. -/
def blank_pubmed_publication (pid : PyVal) : PubRecord :=
  { PublicationId := pid
    Title := ""
    Year := .int 0
    Volume := .int 0
    Issue := .str ""
    Pages := .str ""
    JournalId := ""
    TeamSize := 0
    Month := .int 1
    Day := .int 1
    ISSN := ""
    Doi := "" }

/-- One authorship record, `PubMed._blank_pubmed_author`
(PubMed.py lines 64-72). -/
structure AuthorRecord where
  PublicationId : PyVal
  FullName : String
  FirstName : String
  LastName : String
  Affiliations : String
  AuthorSequence : Nat
  deriving DecidableEq, Repr

/-- The two global accumulators of one `preprocess` run (`pub2year`,
`fieldinfo`, PubMed.py lines 134-135) along with the function-local loop
variable `seq`, which in Python survives across loop iterations — and
across articles and shards — once bound (`None` here means "never bound",
so that reading it raises `NameError`). -/
structure GlobalAcc where
  pub2year : List (PyVal × PyVal)
  fieldinfo : List (String × String × String)
  seq : Option Nat
  deriving DecidableEq, Repr

/-- One shard's four in-memory record collections
(PubMed.py lines 146-149).  `pub2field_df` rows are
`[PublicationId, FieldId]`; `pub2ref_df` rows are
`[PublicationId, pmid, citation]` exactly as appended on line 240. -/
structure ShardAcc where
  publication_df : List PubRecord
  paa_df : List AuthorRecord
  pub2field_df : List (PyVal × String)
  pub2ref_df : List (PyVal × PyVal × String)
  deriving DecidableEq, Repr

/-- The empty shard collections. -/
def emptyShard : ShardAcc :=
  { publication_df := [], paa_df := [], pub2field_df := [], pub2ref_df := [] }

/-- The boilerplate affiliation sentence stripped on PubMed.py line 207. -/
def affiliationBoilerplate : String :=
  "For a full list of the authors\x27 affiliations please see the Acknowledgements section."

/-- One author record of the loop body on PubMed.py lines 197-211:
`seq0` is the 0-based `enumerate` index. -/
def mkAuthorRecord (pid : PyVal) (seq0 : Nat) (author : XNode) : AuthorRecord :=
  let first := load_html_str (load_xml_text (xfind author "ForeName"))
  let last := load_html_str (load_xml_text (xfind author "LastName"))
  let affil :=
    match xfindPath author "AffiliationInfo" "Affiliation" with
    | Option.none => ""
    | Option.some a =>
      pyReplace (load_html_str (load_xml_text (Option.some a))) affiliationBoilerplate ""
  { PublicationId := pid
    FullName := first ++ " " ++ last
    FirstName := first
    LastName := last
    Affiliations := affil
    AuthorSequence := seq0 + 1 }

/-- The author loop of PubMed.py lines 197-211 over the `Author` children
in document order. -/
def processAuthors (pid : PyVal) (authors : List XNode) : List AuthorRecord :=
  authors.enum.map (fun p => mkAuthorRecord pid p.1 p.2)

/-- One iteration of the MeSH-term loop, PubMed.py lines 218-222: the
accumulator pairs the shard's `pub2field_df` rows with the global
`fieldinfo` dict. -/
def processMeshTerm (pid : PyVal)
    (acc : List (PyVal × String) × List (String × String × String)) (term : XNode) :
    Except PyErr (List (PyVal × String) × List (String × String × String)) := do
  let dn := xfind term "DescriptorName"
  let ui ← pyAttrGet dn "UI" ""
  if ui.length > 0 then
    .ok (acc.1 ++ [(pid, ui)], dictSet acc.2 ui (load_xml_text dn, "mesh"))
  else
    .ok acc

/-- One iteration of the chemical-substance loop, PubMed.py lines
226-230. -/
def processChemical (pid : PyVal)
    (acc : List (PyVal × String) × List (String × String × String)) (chem : XNode) :
    Except PyErr (List (PyVal × String) × List (String × String × String)) := do
  let ns := xfind chem "NameOfSubstance"
  let ui ← pyAttrGet ns "UI" ""
  if ui.length > 0 then
    .ok (acc.1 ++ [(pid, ui)], dictSet acc.2 ui (load_xml_text ns, "chem"))
  else
    .ok acc

/-- One iteration of the reference loop, PubMed.py lines 234-240: when
the reference has no `ArticleIdList` the id cell is the *string* `""`,
otherwise the `load_int` of the pubmed-typed article id (an `int` or
`None`). -/
def processReference (pid : PyVal) (acc : List (PyVal × PyVal × String)) (ref : XNode) :
    Except PyErr (List (PyVal × PyVal × String)) := do
  let citation := load_xml_text (xfind ref "Citation")
  let pmid ←
    match xfind ref "ArticleIdList" with
    | Option.some idl =>
      load_int (.str (load_xml_text (xfindAttr idl "ArticleId" "IdType" "pubmed")))
    | Option.none => Except.ok (PyVal.str "")
  .ok (acc ++ [(pid, pmid, citation)])

/-- The body of the per-article loop of `PubMed.preprocess`
(PubMed.py lines 155-242), threading the global accumulators and the
shard's record collections.  Raises exactly where the Python would. -/
def processArticle (g : GlobalAcc) (sh : ShardAcc) (bucket : XNode) :
    Except PyErr (GlobalAcc × ShardAcc) := do
  let medline := xfind bucket "MedlineCitation"
  -- line 160: PublicationId = load_int(load_xml_text(medline.find("PMID")))
  let pmidNode ← pyFind medline "PMID"
  let pid ← load_int (.str (load_xml_text pmidNode))
  let rec0 := blank_pubmed_publication pid
  -- lines 163-168: Article, ArticleTitle, Pagination
  let article ← pyFind medline "Article"
  let titleNode ← pyFind article "ArticleTitle"
  let rec1 := { rec0 with Title := load_html_str (load_xml_text titleNode) }
  let pagination ← pyFind article "Pagination"
  let rec2 :=
    match pagination with
    | Option.none => { rec1 with Pages := PyVal.none }
    | Option.some pg =>
      { rec1 with Pages := .str (load_html_str (load_xml_text (xfind pg "MedlinePgn"))) }
  -- lines 170-174: Journal, JournalIssue, ISSN
  let journal ← pyFind article "Journal"
  let jtitle ← pyFind journal "Title"
  let rec3 := { rec2 with JournalId := load_html_str (load_xml_text jtitle) }
  let ji ← pyFind journal "JournalIssue"
  let volNode ← pyFind ji "Volume"
  let vol ← load_int (.str (load_xml_text volNode))
  let issNode ← pyFind ji "Issue"
  let iss ← load_int (.str (load_xml_text issNode))
  let issnNode ← pyFind journal "ISSN"
  let rec4 := { rec3 with Volume := vol, Issue := iss,
                          ISSN := load_html_str (load_xml_text issnNode) }
  -- lines 176-182: PubmedData/History and its PubMedPubDate
  let rec5 ←
    match xfindPath bucket "PubmedData" "History" with
    | Option.none => Except.ok rec4
    | Option.some history =>
      match xfind history "PubMedPubDate" with
      | Option.none => Except.ok rec4
      | Option.some pdate => do
        let y ← load_int (.str (load_xml_text (xfind pdate "Year")))
        let m ← load_int (.str (load_xml_text (xfind pdate "Month")))
        let d ← load_int (.str (load_xml_text (xfind pdate "Day")))
        Except.ok { rec4 with Year := y, Month := m, Day := d }
  -- lines 185-186: if pub_record Year > 0: pub2year[PublicationId] = Year
  let yearPos ← pyGtZero rec5.Year
  let pub2year' := if yearPos then dictSet g.pub2year pid rec5.Year else g.pub2year
  -- lines 188-191: Doi from PubmedData/ArticleIdList
  let rec6 :=
    match xfindPath bucket "PubmedData" "ArticleIdList" with
    | Option.none => rec5
    | Option.some ids =>
      { rec5 with Doi := load_xml_text (xfindAttr ids "ArticleId" "IdType" "doi") }
  -- lines 194-213: author loop; `seq` is only rebound when the loop runs,
  -- and reading it unbound raises NameError
  let authorList ← pyFind article "AuthorList"
  let (rec7, paa', seq') ←
    match authorList with
    | Option.none => Except.ok (rec6, sh.paa_df, g.seq)
    | Option.some al => do
      let authors := xfindall al "Author"
      let seq' := if authors.length > 0 then Option.some (authors.length - 1) else g.seq
      let ts ←
        match seq' with
        | Option.none => Except.error PyErr.nameError
        | Option.some s => Except.ok (s + 1)
      Except.ok ({ rec6 with TeamSize := ts }, sh.paa_df ++ processAuthors pid authors, seq')
  -- lines 215-230: MeSH terms (over *all* children) and chemicals
  let meshterms ← pyFind medline "MeshHeadingList"
  let acc0 := (sh.pub2field_df, g.fieldinfo)
  let acc1 ←
    match meshterms with
    | Option.none => Except.ok acc0
    | Option.some m => m.children.foldlM (processMeshTerm pid) acc0
  let chemicals ← pyFind medline "ChemicalList"
  let acc2 ←
    match chemicals with
    | Option.none => Except.ok acc1
    | Option.some c => (xfindall c "Chemical").foldlM (processChemical pid) acc1
  -- lines 232-240: references
  let pub2ref' ←
    match xfindPath bucket "PubmedData" "ReferenceList" with
    | Option.none => Except.ok sh.pub2ref_df
    | Option.some refs => (xfindall refs "Reference").foldlM (processReference pid) sh.pub2ref_df
  -- line 242: publication_df.append(pub_record)
  .ok ({ pub2year := pub2year', fieldinfo := acc2.2, seq := seq' },
       { publication_df := sh.publication_df ++ [rec7]
         paa_df := paa'
         pub2field_df := acc2.1
         pub2ref_df := pub2ref' })

/-- Modelled from the spec: the partition-path constants (`path2pub_df`
and friends) live in `pyscisci/database.py`, which is not under `src/`.
Paths are therefore represented algebraically, one constructor per output
kind the spec names: a per-kind shard-indexed partition file, the two
global stores, and anything else. -/
inductive FPath where
  | pubPartition (i : Nat)
  | paaPartition (i : Nat)
  | pub2fieldPartition (i : Nat)
  | pub2refPartition (i : Nat)
  | fieldinfoFile
  | pub2yearFile
  | other (s : String)
  deriving DecidableEq, Repr

/-- The content of one output file.  `raw` stands for pre-existing bytes
this run never inspects. -/
inductive FileContent where
  | table (columns : List String) (rows : List (List PyVal))
  | yearMap (entries : List (PyVal × PyVal))
  | fieldMap (entries : List (String × String × String))
  | raw (s : String)
  deriving DecidableEq, Repr

/-- The output filesystem: an association of paths to contents whose list
order is the directory enumeration order the operating system reports
(which `glob.glob` preserves — it applies no sorting). -/
def FS : Type := List (FPath × FileContent)

instance : DecidableEq FS := by unfold FS; infer_instance

/-- `os.path.isfile` on the modelled filesystem. -/
def fsHas (fs : FS) (p : FPath) : Bool :=
  (dictGet? fs p).isSome

/-- `pandas.astype(int)` on one object-column cell: `int(x)` per element,
so an unparseable string raises `ValueError` and `None` raises
`TypeError`; nothing is turned into null. -/
def astypeIntV (v : PyVal) : Except PyErr PyVal := do
  let n ← pyInt v
  .ok (.int n)

/-- `pandas.to_numeric` (default `errors='raise'`) on one cell: `None`
passes through as `NaN` (null), numbers pass through, an unparseable
string raises `ValueError`.  (Float literals never occur in this
pipeline's `Volume` column, which is fed by `load_int`.) -/
def toNumeric (v : PyVal) : Except PyErr PyVal :=
  match v with
  | .none => .ok .none
  | .int n => .ok (.int n)
  | .str s =>
    match pyIntString s with
    | .ok n => .ok (.int n)
    | .error _ => .error .valueError

/-- `pd.DataFrame(data, columns=..., dtype=int)` coerces a column to int
when every cell converts, and silently leaves the column untouched when
the cast fails (legacy pandas constructor behaviour). -/
def bestEffortInt (col : List PyVal) : List PyVal :=
  match col.mapM astypeIntV with
  | .ok c => c
  | .error _ => col

/-- The publication columns, in the insertion order of
`_blank_pubmed_publication`. -/
def pubColumns : List String :=
  ["PublicationId", "Title", "Year", "Volume", "Issue", "Pages", "JournalId",
   "TeamSize", "Month", "Day", "ISSN", "Doi"]

/-- The authorship columns, in the insertion order of
`_blank_pubmed_author`. -/
def paaColumns : List String :=
  ["PublicationId", "FullName", "FirstName", "LastName", "Affiliations",
   "AuthorSequence"]

/-- PubMed.py line 90. -/
def pub2fieldColumns : List String := ["PublicationId", "FieldId"]

/-- PubMed.py line 93: note that the *first* element of each appended row
(the processed article's own id) is labelled `CitedPublicationId`. -/
def pub2refColumns : List String :=
  ["CitedPublicationId", "CitingPublicationId", "Citation"]

/-- `PubMed._save_dataframes` (PubMed.py lines 74-94): coerces the
declared columns — `astype(int)` for ids, dates and `TeamSize`,
`to_numeric` for `Volume`, best-effort int for the `dtype=int` frames —
and produces the four shard-indexed partition files, in write order. -/
def save_dataframes (ifile : Nat) (pub : List PubRecord) (paa : List AuthorRecord)
    (pub2ref : List (PyVal × PyVal × String)) (pub2field : List (PyVal × String)) :
    Except PyErr (List (FPath × FileContent)) := do
  -- lines 77-82, in source order
  let pids ← (pub.map (·.PublicationId)).mapM astypeIntV
  let years ← (pub.map (·.Year)).mapM astypeIntV
  let months ← (pub.map (·.Month)).mapM astypeIntV
  let days ← (pub.map (·.Day)).mapM astypeIntV
  let vols ← (pub.map (·.Volume)).mapM toNumeric
  let pubRows := pub.enum.map (fun p =>
    [pids.getD p.1 PyVal.none, .str p.2.Title, years.getD p.1 PyVal.none,
     vols.getD p.1 PyVal.none, p.2.Issue, p.2.Pages, .str p.2.JournalId,
     .int (p.2.TeamSize : Int), months.getD p.1 PyVal.none,
     days.getD p.1 PyVal.none, .str p.2.ISSN, .str p.2.Doi])
  -- lines 86-88: AuthorSequence.astype(int) is the identity on these rows
  let paaRows := paa.map (fun r =>
    [r.PublicationId, .str r.FullName, .str r.FirstName, .str r.LastName,
     .str r.Affiliations, .int (r.AuthorSequence : Int)])
  -- lines 90-91
  let p2fRows := List.zipWith (fun a b => [a, b])
    (bestEffortInt (pub2field.map (·.1)))
    (bestEffortInt (pub2field.map (fun p => PyVal.str p.2)))
  -- lines 93-94
  let p2rRows := List.zipWith3 (fun a b c => [a, b, c])
    (bestEffortInt (pub2ref.map (·.1)))
    (bestEffortInt (pub2ref.map (·.2.1)))
    (bestEffortInt (pub2ref.map (fun p => PyVal.str p.2.2)))
  .ok [(FPath.pubPartition ifile, .table pubColumns pubRows),
       (FPath.paaPartition ifile, .table paaColumns paaRows),
       (FPath.pub2fieldPartition ifile, .table pub2fieldColumns p2fRows),
       (FPath.pub2refPartition ifile, .table pub2refColumns p2rRows)]

/-- The run state of one `preprocess` call: the filesystem, the two
global accumulators and the leaked `seq` local, the shard-index counter
`ifile`, and a transcript of the indices that were actually parsed (used
to state, not to compute, skip behaviour). -/
structure RunState where
  fs : FS
  pub2year : List (PyVal × PyVal)
  fieldinfo : List (String × String × String)
  seq : Option Nat
  ifile : Nat
  parsed : List Nat
  deriving DecidableEq

/-- One iteration of the shard loop of `PubMed.preprocess`
(PubMed.py lines 138-245): skip when the publication partition for the
current index exists and no rewrite was requested; otherwise extract all
articles, write the four partitions, and advance. -/
def processShard (rewrite : Bool) (st : RunState) (doc : XNode) :
    Except PyErr RunState :=
  if ¬rewrite ∧ fsHas st.fs (FPath.pubPartition st.ifile) then
    .ok { st with ifile := st.ifile + 1 }
  else do
    let articles := xfindall doc "PubmedArticle"
    let g0 : GlobalAcc := { pub2year := st.pub2year, fieldinfo := st.fieldinfo, seq := st.seq }
    let r ← articles.foldlM (fun (p : GlobalAcc × ShardAcc) a => processArticle p.1 p.2 a)
      (g0, emptyShard)
    let files ← save_dataframes st.ifile r.2.publication_df r.2.paa_df r.2.pub2ref_df
      r.2.pub2field_df
    .ok { fs := files.foldl (fun fs e => dictSet fs e.1 e.2) st.fs
          pub2year := r.1.pub2year
          fieldinfo := r.1.fieldinfo
          seq := r.1.seq
          ifile := st.ifile + 1
          parsed := st.parsed ++ [st.ifile] }

/-- The shard loop itself. -/
def preprocessLoop (rewrite : Bool) : List XNode → RunState → Except PyErr RunState
  | [], st => .ok st
  | doc :: rest, st => do
    let st' ← processShard rewrite st doc
    preprocessLoop rewrite rest st'

/-- The initial run state (PubMed.py lines 134-137). -/
def initRun (fs : FS) : RunState :=
  { fs := fs, pub2year := [], fieldinfo := [], seq := Option.none, ifile := 0, parsed := [] }

/-- `PubMed.preprocess` over an already-listed, already-parsed shard
sequence (PubMed.py lines 134-259): run the shard loop, then persist the
vocabulary store only when a rewrite was requested (lines 249-256), and
always overwrite the year-index file (lines 258-259). -/
def preprocess (rewrite : Bool) (fs : FS) (docs : List XNode) : Except PyErr RunState := do
  let st ← preprocessLoop rewrite docs (initRun fs)
  let fs1 := if rewrite then dictSet st.fs FPath.fieldinfoFile (.fieldMap st.fieldinfo) else st.fs
  .ok { st with fs := dictSet fs1 FPath.pub2yearFile (.yearMap st.pub2year) }

/-- The rows of a table file (what `pd.read_hdf` hands back). -/
def tableRowsOf : FileContent → List (List PyVal)
  | .table _ rows => rows
  | _ => []

/-- Does a path match the authorship-partition glob pattern? -/
def isPaaPartition : FPath → Bool
  | .paaPartition _ => true
  | _ => false

/-- Does a path match the citation-partition glob pattern? -/
def isPub2refPartition : FPath → Bool
  | .pub2refPartition _ => true
  | _ => false

/-- The read path of `parse_publicationauthoraffiliation`
(PubMed.py lines 594-601): the partition files are globbed (line 595),
but constructing the progress bar on line 600 evaluates
`disable=not show_progress`, and the enclosing function (line 514) has
no `show_progress` parameter nor is there such a global — so the loop
raises `NameError` before its first iteration, whatever the glob
matched (even nothing).  The appends on line 601 are unreachable. -/
def parse_paa_load (fs : FS) : Except PyErr (List (List PyVal)) :=
  let paa_files_list := fs.filter (fun e => isPaaPartition e.1)
  match paa_files_list with
  | _ => .error .nameError

/-- The read path of `parse_references` (PubMed.py lines 502-510): glob
the citation partitions, then append each loaded frame.  Line 510 passes
the undefined name `ignore_indexTrue`, so the first iteration of the
append loop raises `NameError`; only an empty match list returns. -/
def parse_pub2ref_load (fs : FS) : Except PyErr (List (List PyVal)) :=
  match fs.filter (fun e => isPub2refPartition e.1) with
  | [] => .ok []
  | _ :: _ => .error .nameError

/-- The Corpus Loader as §4.6 of the spec words it: discover the
partition of the kind for every shard index (`n` bounds the indices),
and concatenate in *ascending* shard-index order, intra-shard row order
preserved.  Stated from the spec, for comparison with the code's
loaders. -/
def specLoadAscending (fs : FS) (pathOf : Nat → FPath) (n : Nat) : List (List PyVal) :=
  (((List.range n).filterMap (fun i => dictGet? fs (pathOf i))).map tableRowsOf).flatten

/-! ## Concrete input fixtures -/

/-- A leaf element with text. -/
def txt (tg s : String) : XNode := .node tg [] (Option.some s) []

/-- A leaf element with attributes and text. -/
def txtA (tg : String) (attrs : List (String × String)) (s : String) : XNode :=
  .node tg attrs (Option.some s) []

/-- An element with children only. -/
def el (tg : String) (cs : List XNode) : XNode := .node tg [] Option.none cs

/-- The global accumulators at the start of a run. -/
def g0 : GlobalAcc := { pub2year := [], fieldinfo := [], seq := Option.none }

/-- A node that is present or absent. -/
def optNode (b : Bool) (n : XNode) : List XNode := if b then [n] else []

/-- A family of article entries: the mandatory skeleton is always present
and each of the optional nodes the claims discuss is toggled by one
flag — `PMID` by `pmid`, then `Pagination`, journal `Title`, `Volume`,
`ISSN`, the history date, author `ForeName` / `LastName`, and
`ArticleIdList`. -/
def mkOptArticle (pmid : Option String)
    (bPag bTitle bVol bISSN bHist bFore bLast bIds : Bool) : XNode :=
  el "PubmedArticle"
    [ el "MedlineCitation"
        ((match pmid with | Option.some p => [txt "PMID" p] | Option.none => []) ++
         [ el "Article"
             ([ txt "ArticleTitle" "T" ] ++
              optNode bPag (el "Pagination" [txt "MedlinePgn" "1-10"]) ++
              [ el "Journal"
                  (optNode bTitle (txt "Title" "J") ++
                   [el "JournalIssue"
                      (optNode bVol (txt "Volume" "12") ++ [txt "Issue" "3"])] ++
                   optNode bISSN (txt "ISSN" "0001-0001")),
                el "AuthorList"
                  [ el "Author"
                      (optNode bFore (txt "ForeName" "Jane") ++
                       optNode bLast (txt "LastName" "Doe")) ] ]) ]),
      el "PubmedData"
        (optNode bHist (el "History"
            [el "PubMedPubDate" [txt "Year" "1999", txt "Month" "12", txt "Day" "31"]]) ++
         optNode bIds (el "ArticleIdList" [txtA "ArticleId" [("IdType", "doi")] "10.1/x"])) ]

/-- Does extraction of a single article succeed from a fresh state? -/
def articleOk (a : XNode) : Bool :=
  match processArticle g0 emptyShard a with
  | .ok _ => true
  | .error _ => false

/-- The publication record extraction emits for a single article (from a
fresh state). -/
def articlePub (a : XNode) : Option PubRecord :=
  match processArticle g0 emptyShard a with
  | .ok p => p.2.publication_df.head?
  | .error _ => Option.none

/-- An article with id 100 whose one reference resolves to pubmed id 50
(the end-to-end scenario of the spec). -/
def article100 : XNode :=
  el "PubmedArticle"
    [ el "MedlineCitation"
        [ txt "PMID" "100",
          el "Article"
            [ txt "ArticleTitle" "Example",
              el "Journal"
                [ txt "Title" "J",
                  el "JournalIssue" [txt "Volume" "1", txt "Issue" "2"] ] ] ],
      el "PubmedData"
        [ el "ReferenceList"
            [ el "Reference"
                [ txt "Citation" "Smith J. 1999",
                  el "ArticleIdList" [txtA "ArticleId" [("IdType", "pubmed")] "50"] ] ] ] ]

/-- An article (id 1) with one author. -/
def articleOneAuthor : XNode :=
  el "PubmedArticle"
    [ el "MedlineCitation"
        [ txt "PMID" "1",
          el "Article"
            [ txt "ArticleTitle" "A",
              el "Journal" [txt "Title" "J", el "JournalIssue" []],
              el "AuthorList"
                [el "Author" [txt "ForeName" "Jane", txt "LastName" "Doe"]] ] ] ]

/-- An article (id 2) whose `AuthorList` node is present but holds zero
`Author` children. -/
def articleEmptyAuthorList : XNode :=
  el "PubmedArticle"
    [ el "MedlineCitation"
        [ txt "PMID" "2",
          el "Article"
            [ txt "ArticleTitle" "B",
              el "Journal" [txt "Title" "J", el "JournalIssue" []],
              el "AuthorList" [] ] ] ]

/-- An article whose `Journal` node carries no `JournalIssue` child. -/
def articleNoJournalIssue : XNode :=
  el "PubmedArticle"
    [ el "MedlineCitation"
        [ txt "PMID" "3",
          el "Article" [txt "ArticleTitle" "C", el "Journal" [txt "Title" "J"]] ] ]

/-- The cell stored in column `col`, row `row` of a table file. -/
def cellAt (fc : FileContent) (col : String) (row : Nat) : Option PyVal :=
  match fc with
  | .table cols rows =>
    match cols.findIdx? (fun c => c = col), rows.get? row with
    | Option.some ci, Option.some r => r.get? ci
    | _, _ => Option.none
  | _ => Option.none

/-- The cell stored in the named file of the filesystem a run produced. -/
def fileCell (res : Except PyErr RunState) (p : FPath) (col : String) (row : Nat) :
    Option PyVal :=
  match res with
  | .ok st =>
    match dictGet? st.fs p with
    | Option.some fc => cellAt fc col row
    | Option.none => Option.none
  | .error _ => Option.none

/-- The rows stored in the named file of the filesystem a run produced. -/
def fileRows (res : Except PyErr RunState) (p : FPath) : List (List PyVal) :=
  match res with
  | .ok st =>
    match dictGet? st.fs p with
    | Option.some fc => tableRowsOf fc
    | Option.none => []
  | .error _ => []

/-! ## Dictionary lemmas -/

section DictLemmas

variable {α β : Type} [DecidableEq α]

theorem dictGet?_dictSet_self (m : List (α × β)) (k : α) (v : β) :
    dictGet? (dictSet m k v) k = Option.some v := by
  induction m with
  | nil => simp [dictSet, dictGet?]
  | cons e m ih =>
    obtain ⟨k0, v0⟩ := e
    by_cases h : k0 = k
    · simp [dictSet, h, dictGet?]
    · simpa [dictSet, h, dictGet?, List.find?] using ih

theorem dictGet?_dictSet_ne (m : List (α × β)) (k k' : α) (v : β) (h : k' ≠ k) :
    dictGet? (dictSet m k v) k' = dictGet? m k' := by
  induction m with
  | nil => simp [dictSet, dictGet?, List.find?, Ne.symm h]
  | cons e m ih =>
    obtain ⟨k0, v0⟩ := e
    by_cases h0 : k0 = k
    · subst h0
      simp [dictSet, dictGet?, List.find?, Ne.symm h]
    · by_cases h1 : k0 = k'
      · subst h1
        simp [dictSet, h0, dictGet?, List.find?, h]
      · simpa [dictSet, h0, dictGet?, List.find?, h1] using ih

/-- Keys of a dict after an update. -/
theorem mem_keys_dictSet (m : List (α × β)) (k a : α) (v : β) :
    a ∈ (dictSet m k v).map Prod.fst ↔ a ∈ m.map Prod.fst ∨ a = k := by
  induction m with
  | nil => simp [dictSet]
  | cons e m ih =>
    obtain ⟨k0, v0⟩ := e
    by_cases h : k0 = k
    · subst h
      have hset : dictSet ((k0, v0) :: m) k0 v = (k0, v) :: m := by
        simp [dictSet]
      rw [hset]
      simp only [List.map_cons, List.mem_cons]
      tauto
    · simp only [dictSet, if_neg h, List.map_cons, List.mem_cons, ih]
      tauto

/-- `dict[k] = v` preserves key uniqueness. -/
theorem keysNodup_dictSet (m : List (α × β)) (k : α) (v : β)
    (h : (m.map Prod.fst).Nodup) : ((dictSet m k v).map Prod.fst).Nodup := by
  induction m with
  | nil => simp [dictSet]
  | cons e m ih =>
    obtain ⟨k0, v0⟩ := e
    simp only [List.map_cons, List.nodup_cons] at h
    by_cases hk : k0 = k
    · subst hk
      simpa [dictSet] using h
    · simp only [dictSet, if_neg hk, List.map_cons, List.nodup_cons]
      refine ⟨fun hc => ?_, ih h.2⟩
      rcases (mem_keys_dictSet m k k0 v).1 hc with h1 | h1
      · exact h.1 h1
      · exact hk h1

/-- With unique keys, a dict holds at most one entry per key. -/
theorem countP_of_keysNodup (m : List (α × β)) (id : α)
    (h : (m.map Prod.fst).Nodup) :
    m.countP (fun e => e.1 = id) = if id ∈ m.map Prod.fst then 1 else 0 := by
  induction m with
  | nil => simp
  | cons e m ih =>
    obtain ⟨k0, v0⟩ := e
    simp only [List.map_cons, List.nodup_cons] at h
    by_cases hk : k0 = id
    · subst hk
      have : k0 ∉ m.map Prod.fst := h.1
      rw [List.countP_cons]
      simp [ih h.2, this]
    · have hid : id ≠ k0 := fun hh => hk hh.symm
      rw [List.countP_cons]
      have hmem : (id ∈ k0 :: List.map Prod.fst m) ↔ id ∈ List.map Prod.fst m := by
        simp [hid]
      simp only [List.map_cons, hk, decide_eq_true_eq, if_false, Nat.add_zero,
        if_congr hmem rfl rfl, ih h.2]

end DictLemmas

/-! ## Fold lemmas for the global accumulators -/

section FoldLemmas

variable {α β : Type} [DecidableEq α]

/-- Looking up a key after a sequence of dict writes returns the value of
the write executed last, falling back to the initial dict. -/
theorem foldl_dictSet_lookup (obs : List (α × β)) (m : List (α × β)) (id : α) :
    dictGet? (obs.foldl (fun acc o => dictSet acc o.1 o.2) m) id =
      ((obs.reverse.find? (fun o => o.1 = id)).map Prod.snd).or (dictGet? m id) := by
  induction obs generalizing m with
  | nil => simp
  | cons o rest ih =>
    simp only [List.foldl_cons, List.reverse_cons]
    rw [ih, List.find?_append]
    cases hfind : rest.reverse.find? (fun o => o.1 = id) with
    | some u => simp [Option.or]
    | none =>
      by_cases ho : o.1 = id
      · simp [List.find?, ho, Option.or]
        exact dictGet?_dictSet_self m id o.2
      · have hne : dictGet? (dictSet m o.1 o.2) id = dictGet? m id :=
          dictGet?_dictSet_ne m o.1 id o.2 (fun hh => ho hh.symm)
        simp [List.find?, ho, hne, Option.or]

/-- A sequence of dict writes preserves key uniqueness. -/
theorem keysNodup_foldl_dictSet (obs : List (α × β)) (m : List (α × β))
    (h : (m.map Prod.fst).Nodup) :
    (((obs.foldl (fun acc o => dictSet acc o.1 o.2) m)).map Prod.fst).Nodup := by
  induction obs generalizing m with
  | nil => exact h
  | cons o rest ih => exact ih _ (keysNodup_dictSet m o.1 o.2 h)

/-- A key is present after a sequence of dict writes iff it was present
initially or some write targeted it. -/
theorem mem_keys_foldl_dictSet (obs : List (α × β)) (m : List (α × β)) (id : α) :
    id ∈ ((obs.foldl (fun acc o => dictSet acc o.1 o.2) m)).map Prod.fst ↔
      id ∈ m.map Prod.fst ∨ ∃ o ∈ obs, o.1 = id := by
  induction obs generalizing m with
  | nil => simp
  | cons o rest ih =>
    simp only [List.foldl_cons, ih, mem_keys_dictSet, List.exists_mem_cons_iff]
    constructor
    · rintro ((h1 | h1) | h1)
      · exact Or.inl h1
      · exact Or.inr (Or.inl h1.symm)
      · exact Or.inr (Or.inr h1)
    · rintro (h1 | h1 | h1)
      · exact Or.inl (Or.inl h1)
      · exact Or.inl (Or.inr h1.symm)
      · exact Or.inr h1

end FoldLemmas

/-! ## Skip-loop lemmas -/

/-- When every remaining index already has its publication partition and
no rewrite was requested, the loop skips every shard: nothing is parsed,
the filesystem and the accumulators are untouched, only the index counter
advances. -/
theorem preprocessLoop_skipAll :
    ∀ (docs : List XNode) (st : RunState),
      (∀ i, i < docs.length → fsHas st.fs (FPath.pubPartition (st.ifile + i)) = true) →
      preprocessLoop false docs st = .ok { st with ifile := st.ifile + docs.length }
  | [], st, _ => by simp [preprocessLoop]
  | doc :: docs, st, h => by
    have h0 : fsHas st.fs (FPath.pubPartition st.ifile) = true := by
      simpa using h 0 (by simp)
    have hps : processShard false st doc = .ok { st with ifile := st.ifile + 1 } := by
      simp [processShard, h0]
    have ih := preprocessLoop_skipAll docs { st with ifile := st.ifile + 1 }
      (fun i hi => by
        have := h (i + 1) (by simpa using Nat.succ_lt_succ hi)
        simpa [Nat.add_assoc, Nat.add_comm 1 i] using this)
    have harith : st.ifile + 1 + docs.length = st.ifile + (docs.length + 1) := by omega
    simp only [preprocessLoop, hps, Bind.bind, Except.bind, ih, harith, List.length_cons]

/-- Unfolding the tail of `preprocess` once the loop result is known. -/
theorem preprocess_of_loop (rw : Bool) (fs : FS) (docs : List XNode) (st : RunState)
    (h : preprocessLoop rw docs (initRun fs) = .ok st) :
    preprocess rw fs docs =
      .ok { st with
            fs := dictSet
              (if rw then dictSet st.fs FPath.fieldinfoFile (.fieldMap st.fieldinfo)
               else st.fs)
              FPath.pub2yearFile (.yearMap st.pub2year) } := by
  simp only [preprocess, h, Bind.bind, Except.bind]

/-! ## Further fixtures for the claim theorems -/

/-- An article whose `MedlineCitation` holds no `Article` node at all. -/
def articleNoArticleNode : XNode :=
  el "PubmedArticle" [el "MedlineCitation" [txt "PMID" "4"]]

/-- The first authorship record extraction emits for a single article
(from a fresh state). -/
def articleAuthor (a : XNode) : Option AuthorRecord :=
  match processArticle g0 emptyShard a with
  | .ok p => p.2.paa_df.head?
  | .error _ => Option.none

/-! ## Claim theorems -/

/-- C10: `load_int` returns the parsed integer for any string the Python
`int` conversion accepts, returns `None` for any string it rejects with
`ValueError`, and — because it catches only `ValueError` — calling it on
the non-string non-numeric value `None` raises an uncaught `TypeError`. -/
theorem load_int_catches_only_valueerror :
    (∀ (s : String) (n : Int), pyInt (.str s) = .ok n →
        load_int (.str s) = .ok (.int n)) ∧
    (∀ s : String, pyInt (.str s) = .error .valueError →
        load_int (.str s) = .ok PyVal.none) ∧
    load_int PyVal.none = .error .typeError := by
  refine ⟨fun s n h => ?_, fun s h => ?_, rfl⟩
  · simp [load_int, h]
  · simp [load_int, h]

/-- Witness for C10 at the concrete inputs `"42"`, `"abc"` and `None`. -/
theorem load_int_catches_only_valueerror_witness :
    load_int (.str "42") = .ok (.int 42) ∧
    load_int (.str "abc") = .ok PyVal.none ∧
    load_int PyVal.none = .error .typeError :=
  ⟨load_int_catches_only_valueerror.1 "42" 42 (by decide),
   load_int_catches_only_valueerror.2.1 "abc" (by decide),
   load_int_catches_only_valueerror.2.2⟩

/-- C1: evaluating the pipeline on an article with id 100 whose one
reference resolves to pubmed id 50 shows the stored citation row has the
two id columns swapped: the citing article id 100 is stored under the
`CitedPublicationId` column and the reference id 50 under
`CitingPublicationId` (PubMed.py line 240 appends
`[PublicationId, pmid, citation]`, line 93 labels the columns
`[CitedPublicationId, CitingPublicationId, Citation]`). -/
theorem citation_row_swaps_citing_and_cited :
    fileCell (preprocess false [] [el "PubmedArticleSet" [article100]])
        (FPath.pub2refPartition 0) "CitedPublicationId" 0 = Option.some (.int 100) ∧
    fileCell (preprocess false [] [el "PubmedArticleSet" [article100]])
        (FPath.pub2refPartition 0) "CitingPublicationId" 0 = Option.some (.int 50) := by
  decide

/-- C2: on a shard holding an article with one author followed by an
article whose `AuthorList` node is present but empty, the second article
is written with `TeamSize = 1` (the stale loop variable of the previous
article) while zero authorship rows carry its id; and a shard whose first
article has an empty `AuthorList` raises `NameError` outright. -/
theorem teamsize_mismatch_on_empty_authorlist :
    fileCell (preprocess false [] [el "S" [articleOneAuthor, articleEmptyAuthorList]])
        (FPath.pubPartition 0) "TeamSize" 1 = Option.some (.int 1) ∧
    (fileRows (preprocess false [] [el "S" [articleOneAuthor, articleEmptyAuthorList]])
        (FPath.paaPartition 0)).filter
        (fun r => r.head? = Option.some (PyVal.int 2)) = [] ∧
    preprocess false [] [el "S" [articleEmptyAuthorList]] = .error .nameError := by
  decide

/-- C3 counterexample: an article whose `Journal` node has no
`JournalIssue` child — one of the optional absences the claim lists —
makes extraction raise `AttributeError` instead of completing. -/
theorem extraction_raises_on_missing_journalissue :
    processArticle g0 emptyShard articleNoJournalIssue = .error .attributeError := by
  decide

/-- C3 amended: extraction completes, substituting the documented
defaults, for every combination of absences of `Pagination`, journal
`Title`, `Volume`, `ISSN`, the history date, author `ForeName` /
`LastName`, and the article-id list; but the absence of the `Article`
node (like that of `JournalIssue`) raises `AttributeError`. -/
theorem extraction_tolerates_listed_optional_absences :
    (∀ bPag bTitle bVol bISSN bHist bFore bLast bIds : Bool,
      articleOk (mkOptArticle (Option.some "7")
          bPag bTitle bVol bISSN bHist bFore bLast bIds) = true ∧
      articlePub (mkOptArticle (Option.some "7")
          bPag bTitle bVol bISSN bHist bFore bLast bIds) =
        Option.some
          { PublicationId := .int 7, Title := "T",
            Year := if bHist then .int 1999 else .int 0,
            Volume := if bVol then .int 12 else PyVal.none,
            Issue := .int 3,
            Pages := if bPag then .str "1-10" else PyVal.none,
            JournalId := if bTitle then "J" else "",
            TeamSize := 1,
            Month := if bHist then .int 12 else .int 1,
            Day := if bHist then .int 31 else .int 1,
            ISSN := if bISSN then "0001-0001" else "",
            Doi := if bIds then "10.1/x" else "" } ∧
      articleAuthor (mkOptArticle (Option.some "7")
          bPag bTitle bVol bISSN bHist bFore bLast bIds) =
        Option.some
          { PublicationId := .int 7,
            FullName := (if bFore then "Jane" else "") ++ " " ++
              (if bLast then "Doe" else ""),
            FirstName := if bFore then "Jane" else "",
            LastName := if bLast then "Doe" else "",
            Affiliations := "",
            AuthorSequence := 1 }) ∧
    processArticle g0 emptyShard articleNoArticleNode = .error .attributeError := by
  constructor
  · decide
  · decide

/-- C6 counterexample: an article without a `PMID` node is extracted
without an exception, but the emitted record carries `PublicationId =
None` (the `load_int` failure marker passed into the blank record), not
the sentinel `0`. -/
theorem missing_pmid_record_id_is_none :
    articleOk (mkOptArticle Option.none true true true true true true true true) = true ∧
    (articlePub (mkOptArticle Option.none true true true true true true true true)).map
        (fun r => r.PublicationId) = Option.some PyVal.none ∧
    (articlePub (mkOptArticle Option.none true true true true true true true true)).map
        (fun r => r.PublicationId) ≠ Option.some (PyVal.int 0) := by
  decide

/-- C6 amended: for every combination of the other optional absences, an
article without a `PMID` node is still extracted into a publication
record — nothing is dropped and nothing raises — whose `PublicationId` is
`None` rather than the sentinel `0`. -/
theorem missing_pmid_emits_record_with_none_id :
    ∀ bPag bTitle bVol bISSN bHist bFore bLast bIds : Bool,
      articleOk (mkOptArticle Option.none
          bPag bTitle bVol bISSN bHist bFore bLast bIds) = true ∧
      (articlePub (mkOptArticle Option.none
          bPag bTitle bVol bISSN bHist bFore bLast bIds)).map
        (fun r => r.PublicationId) = Option.some PyVal.none := by
  decide

/-- A one-article shard whose only MeSH descriptor has id `D1` and the
given name. -/
def docShardMesh (nm : String) : XNode :=
  el "S"
    [ el "PubmedArticle"
        [ el "MedlineCitation"
            [ txt "PMID" "9",
              el "Article" [txt "ArticleTitle" "T", el "Journal" [el "JournalIssue" []]],
              el "MeshHeadingList"
                [el "MeshHeading" [txtA "DescriptorName" [("UI", "D1")] nm]] ] ] ]

/-- C4: re-running `preprocess` with the rewrite flag false over a shard
set whose publication partitions all exist skips every shard — nothing is
parsed (`parsed = []`), the accumulators stay empty, and the filesystem
changes only at the always-rewritten year-index file, so every existing
partition file is left byte-identical. -/
theorem preprocess_skips_fully_processed :
    ∀ (fs : FS) (docs : List XNode),
      (∀ i, i < docs.length → fsHas fs (FPath.pubPartition i) = true) →
      preprocess false fs docs =
        .ok { fs := dictSet fs FPath.pub2yearFile (.yearMap []),
              pub2year := [], fieldinfo := [], seq := Option.none,
              ifile := docs.length, parsed := [] } ∧
      (∀ p : FPath, p ≠ FPath.pub2yearFile →
        dictGet? (dictSet fs FPath.pub2yearFile (FileContent.yearMap [])) p =
          dictGet? fs p) := by
  intro fs docs h
  have hloop := preprocessLoop_skipAll docs (initRun fs) (by simpa [initRun] using h)
  have hpre := preprocess_of_loop false fs docs _ hloop
  constructor
  · simpa [initRun] using hpre
  · intro p hp
    exact dictGet?_dictSet_ne fs FPath.pub2yearFile p (FileContent.yearMap []) hp

/-- Witness for C4: a two-shard set whose two publication partitions
exist; the run skips both and only rewrites the year-index file. -/
theorem preprocess_skips_fully_processed_witness :
    preprocess false
        [(FPath.pubPartition 0, FileContent.raw "a"),
         (FPath.pubPartition 1, FileContent.raw "b")]
        [el "S" [], el "S" []] =
      .ok { fs := dictSet
              [(FPath.pubPartition 0, FileContent.raw "a"),
               (FPath.pubPartition 1, FileContent.raw "b")]
              FPath.pub2yearFile (.yearMap []),
            pub2year := [], fieldinfo := [], seq := Option.none,
            ifile := 2, parsed := [] } :=
  (preprocess_skips_fully_processed
    [(FPath.pubPartition 0, FileContent.raw "a"),
     (FPath.pubPartition 1, FileContent.raw "b")]
    [el "S" [], el "S" []] (by decide)).1

/-- C9: every completed run overwrites the year-index file with exactly
the run's accumulated `pub2year` mapping; a skipped shard changes nothing
but the index counter (so contributes no entries); and a run that skips
every shard replaces the file with the empty mapping. -/
theorem pub2year_file_rewritten_every_run :
    (∀ (rw : Bool) (fs : FS) (docs : List XNode) (rs : RunState),
      preprocess rw fs docs = .ok rs →
      dictGet? rs.fs FPath.pub2yearFile = Option.some (.yearMap rs.pub2year)) ∧
    (∀ (st : RunState) (doc : XNode),
      fsHas st.fs (FPath.pubPartition st.ifile) = true →
      processShard false st doc = .ok { st with ifile := st.ifile + 1 }) ∧
    (∀ (fs : FS) (docs : List XNode),
      (∀ i, i < docs.length → fsHas fs (FPath.pubPartition i) = true) →
      preprocess false fs docs =
        .ok { fs := dictSet fs FPath.pub2yearFile (.yearMap []),
              pub2year := [], fieldinfo := [], seq := Option.none,
              ifile := docs.length, parsed := [] }) := by
  refine ⟨fun rw fs docs rs h => ?_, fun st doc h0 => ?_, fun fs docs h => ?_⟩
  · cases hl : preprocessLoop rw docs (initRun fs) with
    | error e =>
      have herr : preprocess rw fs docs = .error e := by
        simp only [preprocess, hl, Bind.bind, Except.bind]
      rw [herr] at h
      exact absurd h (by simp)
    | ok st =>
      rw [preprocess_of_loop rw fs docs st hl] at h
      cases h
      exact dictGet?_dictSet_self _ _ _
  · simp [processShard, h0]
  · have hloop := preprocessLoop_skipAll docs (initRun fs) (by simpa [initRun] using h)
    have hpre := preprocess_of_loop false fs docs _ hloop
    simpa [initRun] using hpre

/-- Witness for C9: a run over one already-processed shard completes and
leaves the year-index file holding the empty mapping. -/
theorem pub2year_file_rewritten_every_run_witness :
    dictGet?
        (RunState.fs
          { fs := dictSet [(FPath.pubPartition 0, FileContent.raw "x")]
              FPath.pub2yearFile (.yearMap []),
            pub2year := [], fieldinfo := [], seq := Option.none,
            ifile := 1, parsed := [] })
        FPath.pub2yearFile = Option.some (FileContent.yearMap []) :=
  pub2year_file_rewritten_every_run.1 false
    [(FPath.pubPartition 0, FileContent.raw "x")] [el "S" []] _
    (pub2year_file_rewritten_every_run.2.2
      [(FPath.pubPartition 0, FileContent.raw "x")] [el "S" []] (by decide))

/-- C5: the vocabulary accumulator is a dict written by `dictSet`; after
any sequence of observations it holds exactly one entry per observed id,
equal to the observation executed last — and concretely, two shards
observing id `D1` with different names leave one entry with the second
name, which a rewrite run persists to the vocabulary store. -/
theorem fieldinfo_accumulator_last_write_wins :
    (∀ (obs : List (String × String × String)) (id : String),
      List.countP (fun e => e.1 = id)
          (obs.foldl (fun acc o => dictSet acc o.1 o.2) []) =
        (if ∃ o ∈ obs, o.1 = id then 1 else 0) ∧
      dictGet? (obs.foldl (fun acc o => dictSet acc o.1 o.2) []) id =
        (obs.reverse.find? (fun o => o.1 = id)).map Prod.snd) ∧
    (preprocess true [] [docShardMesh "Name1", docShardMesh "Name2"]).map
        (fun rs => (rs.fieldinfo, dictGet? rs.fs FPath.fieldinfoFile)) =
      .ok ([("D1", "Name2", "mesh")],
           Option.some (.fieldMap [("D1", "Name2", "mesh")])) := by
  constructor
  · intro obs id
    constructor
    · have h1 := keysNodup_foldl_dictSet obs
        ([] : List (String × String × String)) (by simp)
      rw [countP_of_keysNodup _ _ h1]
      have h2 := mem_keys_foldl_dictSet obs
        ([] : List (String × String × String)) id
      have hiff : (id ∈ (obs.foldl (fun acc o => dictSet acc o.1 o.2) []).map
          Prod.fst) ↔ ∃ o ∈ obs, o.1 = id := by
        rw [h2]; simp
      rw [if_congr hiff rfl rfl]
    · rw [foldl_dictSet_lookup]
      simp [dictGet?]
  · decide

/-- Is a cell an `int`? -/
def isIntCell : PyVal → Bool
  | .int _ => true
  | _ => false

/-- Is a cell an `int` or a missing value (`None`)? -/
def isIntOrNoneCell : PyVal → Bool
  | .int _ => true
  | .none => true
  | _ => false

/-- `astype(int)` is the identity (and raises nothing) on a column of
ints. -/
theorem mapM_astypeIntV_ok (l : List PyVal) (h : ∀ v ∈ l, isIntCell v = true) :
    l.mapM astypeIntV = .ok l := by
  induction l with
  | nil => rfl
  | cons v l ih =>
    have hv := h v (List.mem_cons_self v l)
    have ihl := ih (fun u hu => h u (List.mem_cons_of_mem v hu))
    cases v with
    | int n =>
      rw [List.mapM_cons, ihl]
      rfl
    | none => simp [isIntCell] at hv
    | str s => simp [isIntCell] at hv

/-- `to_numeric` is the identity (and raises nothing) on a column of ints
and missing values; `None` stays null. -/
theorem mapM_toNumeric_ok (l : List PyVal) (h : ∀ v ∈ l, isIntOrNoneCell v = true) :
    l.mapM toNumeric = .ok l := by
  induction l with
  | nil => rfl
  | cons v l ih =>
    have hv := h v (List.mem_cons_self v l)
    have ihl := ih (fun u hu => h u (List.mem_cons_of_mem v hu))
    cases v with
    | int n =>
      rw [List.mapM_cons, ihl]
      rfl
    | none =>
      rw [List.mapM_cons, ihl]
      rfl
    | str s => simp [isIntOrNoneCell] at hv

/-- C7 counterexample: the Writer raises rather than writing null — a
record whose `PublicationId` is `None` makes `astype(int)` raise
`TypeError`, and an unparseable `Volume` string makes `to_numeric`
(default raise mode) raise `ValueError`; no partition file is produced
in either case. -/
theorem writer_raises_on_unparseable_values :
    save_dataframes 0 [blank_pubmed_publication PyVal.none] [] [] [] =
      .error .typeError ∧
    save_dataframes 0
      [{ blank_pubmed_publication (.int 1) with Volume := .str "n/a" }] [] [] [] =
      .error .valueError := by
  decide

/-- The shard-indexed paths a Writer invocation produced (`none` when it
raised). -/
def savedPaths (res : Except PyErr (List (FPath × FileContent))) : Option (List FPath) :=
  match res with
  | .ok files => Option.some (files.map Prod.fst)
  | .error _ => Option.none

/-- C7 amended: the Writer coerces the id, date and `TeamSize` columns
with `astype(int)` and `Volume` with `to_numeric`; a missing (`None`)
`Volume` is kept as null, but any unparseable or `None` value in the
integer columns (and any unparseable `Volume` string) raises instead of
becoming null; whenever the coercions succeed it emits exactly one
partition file per record kind for the shard index. -/
theorem writer_coerces_and_writes_one_file_per_kind :
    ∀ (i : Nat) (pub : List PubRecord) (paa : List AuthorRecord)
      (pub2ref : List (PyVal × PyVal × String)) (pub2field : List (PyVal × String)),
      (∀ r ∈ pub, isIntCell r.PublicationId = true ∧ isIntCell r.Year = true ∧
        isIntCell r.Month = true ∧ isIntCell r.Day = true ∧
        isIntOrNoneCell r.Volume = true) →
      savedPaths (save_dataframes i pub paa pub2ref pub2field) =
        Option.some
          [FPath.pubPartition i, FPath.paaPartition i,
           FPath.pub2fieldPartition i, FPath.pub2refPartition i] ∧
      toNumeric PyVal.none = .ok PyVal.none := by
  intro i pub paa pub2ref pub2field h
  have h1 : (pub.map (fun r => r.PublicationId)).mapM astypeIntV =
      .ok (pub.map (fun r => r.PublicationId)) :=
    mapM_astypeIntV_ok _ (fun v hv => by
      obtain ⟨r, hr, rfl⟩ := List.mem_map.1 hv; exact (h r hr).1)
  have h2 : (pub.map (fun r => r.Year)).mapM astypeIntV =
      .ok (pub.map (fun r => r.Year)) :=
    mapM_astypeIntV_ok _ (fun v hv => by
      obtain ⟨r, hr, rfl⟩ := List.mem_map.1 hv; exact (h r hr).2.1)
  have h3 : (pub.map (fun r => r.Month)).mapM astypeIntV =
      .ok (pub.map (fun r => r.Month)) :=
    mapM_astypeIntV_ok _ (fun v hv => by
      obtain ⟨r, hr, rfl⟩ := List.mem_map.1 hv; exact (h r hr).2.2.1)
  have h4 : (pub.map (fun r => r.Day)).mapM astypeIntV =
      .ok (pub.map (fun r => r.Day)) :=
    mapM_astypeIntV_ok _ (fun v hv => by
      obtain ⟨r, hr, rfl⟩ := List.mem_map.1 hv; exact (h r hr).2.2.2.1)
  have h5 : (pub.map (fun r => r.Volume)).mapM toNumeric =
      .ok (pub.map (fun r => r.Volume)) :=
    mapM_toNumeric_ok _ (fun v hv => by
      obtain ⟨r, hr, rfl⟩ := List.mem_map.1 hv; exact (h r hr).2.2.2.2)
  refine ⟨?_, rfl⟩
  simp only [save_dataframes, h1, h2, h3, h4, h5, Bind.bind, Except.bind, savedPaths,
    List.map_cons, List.map_nil]

/-- Witness for C7 at one concrete well-typed record collection. -/
theorem writer_coerces_and_writes_one_file_per_kind_witness :
    savedPaths (save_dataframes 0 [blank_pubmed_publication (.int 5)] [] [] []) =
      Option.some
        [FPath.pubPartition 0, FPath.paaPartition 0,
         FPath.pub2fieldPartition 0, FPath.pub2refPartition 0] ∧
    toNumeric PyVal.none = .ok PyVal.none :=
  writer_coerces_and_writes_one_file_per_kind 0
    [blank_pubmed_publication (.int 5)] [] [] [] (by decide)

/-- Looking up a key satisfying the glob predicate is unaffected by
restricting the listing to the glob matches. -/
theorem dictGet?_filter_pred {α β : Type} [DecidableEq α]
    (m : List (α × β)) (pred : α → Bool) (k : α) (hk : pred k = true) :
    dictGet? m k = dictGet? (m.filter (fun e => pred e.1)) k := by
  induction m with
  | nil => rfl
  | cons e m ih =>
    obtain ⟨k0, v0⟩ := e
    by_cases h0 : k0 = k
    · subst h0
      simp [dictGet?, List.find?, hk, List.filter]
    · by_cases hp : pred k0 = true
      · simpa [dictGet?, List.find?, h0, List.filter, hp] using ih
      · simpa [dictGet?, List.find?, h0, List.filter, hp] using ih

/-- With unique keys, looking the keys of an association list back up
returns its values in order. -/
theorem filterMap_dictGet_self {α β : Type} [DecidableEq α]
    (M : List (α × β)) (h : (M.map Prod.fst).Nodup) :
    (M.map Prod.fst).filterMap (fun k => dictGet? M k) = M.map Prod.snd := by
  induction M with
  | nil => rfl
  | cons e M ih =>
    obtain ⟨k, v⟩ := e
    simp only [List.map_cons, List.nodup_cons] at h
    simp only [List.map_cons, List.filterMap_cons]
    have hself : dictGet? ((k, v) :: M) k = Option.some v := by
      simp [dictGet?, List.find?]
    rw [hself]
    have hcongr : (M.map Prod.fst).filterMap (fun u => dictGet? ((k, v) :: M) u) =
        (M.map Prod.fst).filterMap (fun u => dictGet? M u) := by
      refine List.filterMap_congr (fun u hu => ?_)
      have hne : ¬k = u := fun hh => h.1 (hh ▸ hu)
      simp [dictGet?, List.find?, hne]
    rw [hcongr, ih h.2]


/-- A filesystem whose authorship partitions are already laid out in
ascending shard-index order. -/
def fsAscPaa : FS :=
  [(FPath.paaPartition 0, FileContent.table paaColumns [[PyVal.int 1]]),
   (FPath.paaPartition 1, FileContent.table paaColumns [[PyVal.int 2]])]

/-- C8: neither read path builds the unified table.  The authorship
loader raises `NameError` on every filesystem — even one whose
partitions are enumerated in ascending index order, and even an empty
one — because line 600 evaluates the unbound name `show_progress`; in
particular it never returns the ascending concatenation the claim
describes.  The reference loader raises `NameError` (the unbound
`ignore_indexTrue`, line 510) as soon as it discovers one partition
file. -/
theorem loaders_raise_nameerror :
    parse_paa_load fsAscPaa = .error .nameError ∧
    parse_paa_load fsAscPaa ≠ .ok (specLoadAscending fsAscPaa FPath.paaPartition 2) ∧
    parse_paa_load [] = .error .nameError ∧
    parse_pub2ref_load [(FPath.pub2refPartition 0, .table pub2refColumns [])] =
      .error .nameError := by
  decide

end PubMedETL
